import Mathlib

/-!
Verification of the compiled-generator hand-off core from
src/nuitka/build/include/nuitka/compiled_generator.hpp.

The header defines the generator storage struct, its status enum, and the
producer-side hand-off operations YIELD_VALUE, CHECK_EXCEPTION and
YIELD_RETURN, plus the accessors Nuitka_Generator_Check and
Nuitka_Generator_GetName.  We embed these shallowly: Python object pointers
become abstract addresses (Nat), nullable pointers become Option, reference
counts become an explicit map, and the thread error indicator written by
PyErr_Restore becomes an explicit field.  The fiber switch and assertObject
live outside this header; they are modelled from the specification and say
so in their doc comments.
-/

namespace Nuitka

/-- Abstract identity (address) of a Python object. -/
abbrev Obj := Nat

/-- The address of the Py_None singleton. -/
def Py_None : Obj := 0

/-- Fiber handles are abstract for this development. -/
abbrev Fiber := Nat

/-- Status of the generator object (enum class Generator_Status). -/
inductive Generator_Status where
  | status_Unused
  | status_Running
  | status_Finished
deriving DecidableEq

/-- Numeric rank of a status along the Unused -> Running -> Finished order. -/
def Generator_Status.rank : Generator_Status → Nat
  | .status_Unused => 0
  | .status_Running => 1
  | .status_Finished => 2

/-- The advancement order on statuses: a status may stay or move forward. -/
def statusLe (a b : Generator_Status) : Prop := a.rank ≤ b.rank

/-- The Nuitka_GeneratorObject storage, field for field as in the header;
pointer fields that may be NULL are Option. -/
structure Nuitka_GeneratorObject where
  m_name : Obj
  m_yielder_context : Fiber
  m_caller_context : Fiber
  m_context : Nat
  m_weakrefs : Option Obj
  m_running : Int
  m_code : Nat
  m_yielded : Option Obj
  m_exception_type : Option Obj
  m_exception_value : Option Obj
  m_exception_tb : Option Obj
  m_frame : Nat
  m_code_object : Nat
  m_status : Generator_Status
deriving DecidableEq

/-- Per-object reference counts. -/
abbrev RefCounts := Obj → Nat

/-- Py_INCREF. -/
def incref (r : RefCounts) (o : Obj) : RefCounts :=
  fun p => if p = o then r p + 1 else r p

/-- Py_XINCREF: increments only when the pointer is non-NULL. -/
def xincref (r : RefCounts) (o : Option Obj) : RefCounts :=
  match o with
  | none => r
  | some a => incref r a

/-- Py_DECREF. -/
def decref (r : RefCounts) (o : Obj) : RefCounts :=
  fun p => if p = o then r p - 1 else r p

/-- Py_XDECREF. -/
def xdecref (r : RefCounts) (o : Option Obj) : RefCounts :=
  match o with
  | none => r
  | some a => decref r a

/-- The machine state around one generator: the generator struct, the
per-object reference counts, and the thread error indicator (the triple
most recently installed by PyErr_Restore, or none). -/
structure World where
  gen : Nuitka_GeneratorObject
  refcnt : RefCounts
  errIndicator : Option (Obj × Option Obj × Option Obj)

/-- CPython PyErr_Restore: installs the triple as the thread error
indicator, taking ownership of the references passed in and releasing the
references the indicator previously held. -/
def PyErr_Restore (w : World) (ty : Obj) (val tb : Option Obj) : World :=
  let r :=
    match w.errIndicator with
    | none => w.refcnt
    | some (t, v, b) => xdecref (xdecref (decref w.refcnt t) v) b
  { w with refcnt := r, errIndicator := some (ty, val, tb) }

/-- Modelled from the spec: assertObject is defined outside this header; the
spec states the live-reference invariant it enforces — the pointer must be
non-NULL and reference a live (positively counted) object; a null or dead
payload is a fatal assertion failure. -/
def assertObject (w : World) (p : Option Obj) : Bool :=
  match p with
  | none => false
  | some o => decide (0 < w.refcnt o)

/-- Modelled from the spec: swapFiber lives in fibers.hpp, outside this
header.  The spec states the switch carries no value of its own: all data
hand-off goes through the shared slots of the generator, written before the
switch and read after it resumes.  The activity of the other context while
this one is suspended is an arbitrary state transformer, applied to the
state exactly as it stood at the switch. -/
def swapFiber (resumeAction : World → World) (w : World) : World := resumeAction w

/-- Result of CHECK_EXCEPTION: it either falls through, throws
_PythonException after restoring the stored error, or dies on the
assertion. -/
inductive CheckResult where
  | assertFail (w : World)
  | raised (w : World)
  | ok (w : World)

/-- The state each CheckResult constructor carries. -/
def CheckResult.world : CheckResult → World
  | .assertFail w => w
  | .raised w => w
  | .ok w => w

/-- The raise branch of CHECK_EXCEPTION: Py_INCREF the type, Py_XINCREF the
value and traceback, PyErr_Restore the three pointers, then null only the
m_exception_type slot. -/
def raiseStoredError (w : World) (ty : Obj) : World :=
  let w1 : World :=
    { w with refcnt := (xincref (xincref (incref w.refcnt ty) w.gen.m_exception_value) w.gen.m_exception_tb) }
  let w2 := PyErr_Restore w1 ty w.gen.m_exception_value w.gen.m_exception_tb
  { w2 with gen := { w2.gen with m_exception_type := none } }

/-- CHECK_EXCEPTION from the header: when m_exception_type is set, assert it
is a live object, restore the stored triple as the current error and throw;
otherwise do nothing. -/
def CHECK_EXCEPTION (w : World) : CheckResult :=
  match w.gen.m_exception_type with
  | none => .ok w
  | some ty =>
      if assertObject w (some ty) then .raised (raiseStoredError w ty)
      else .assertFail w

/-- Result of YIELD_VALUE: assertion death, a thrown _PythonException, or a
normal return of a (possibly NULL) pointer. -/
inductive YieldResult where
  | assertFail (w : World)
  | raised (w : World)
  | returned (v : Option Obj) (w : World)

/-- The state each YieldResult constructor carries. -/
def YieldResult.world : YieldResult → World
  | .assertFail w => w
  | .raised w => w
  | .returned _ w => w

/-- Whether a YieldResult is an assertion failure. -/
def YieldResult.isAssertFail : YieldResult → Bool
  | .assertFail _ => true
  | _ => false

/-- The returned pointer of a YieldResult, when it returned normally. -/
def YieldResult.retVal : YieldResult → Option (Option Obj)
  | .returned v _ => some v
  | _ => none

/-- The write generator->m_yielded = value performed by YIELD_VALUE before
the switch. -/
def writeYielded (w : World) (value : Obj) : World :=
  { w with gen := { w.gen with m_yielded := some value } }

/-- YIELD_VALUE from the header: assert the value, store it in m_yielded,
switch to the caller context, and on resume run CHECK_EXCEPTION and then
return the current m_yielded. -/
def YIELD_VALUE (w : World) (value : Obj) (resumeAction : World → World) :
    YieldResult :=
  if assertObject w (some value) then
    let w2 := swapFiber resumeAction (writeYielded w value)
    match CHECK_EXCEPTION w2 with
    | .assertFail w3 => .assertFail w3
    | .raised w3 => .raised w3
    | .ok w3 => .returned w3.gen.m_yielded w3
  else .assertFail w

/-- Result of the void YIELD_RETURN: assertion death, a thrown
_PythonException, or normal fall-through. -/
inductive UnitResult where
  | assertFail (w : World)
  | raised (w : World)
  | ok (w : World)

/-- The state each UnitResult constructor carries. -/
def UnitResult.world : UnitResult → World
  | .assertFail w => w
  | .raised w => w
  | .ok w => w

/-- YIELD_RETURN from the header, with the preprocessor gate
PYTHON_VERSION < 270 made an explicit parameter: below 2.7 a non-None value
is handed off through YIELD_VALUE, otherwise nothing happens. -/
def YIELD_RETURN (version : Nat) (w : World) (value : Obj)
    (resumeAction : World → World) : UnitResult :=
  if version < 270 then
    if value = Py_None then .ok w
    else
      match YIELD_VALUE w value resumeAction with
      | .assertFail w1 => .assertFail w1
      | .raised w1 => .raised w1
      | .returned _ w1 => .ok w1
  else .ok w

/-- Nuitka_Generator_GetName: reads m_name; as a function of the state it
returns the name together with the untouched state. -/
def Nuitka_Generator_GetName (w : World) : Obj × World := (w.gen.m_name, w)

/-- A Python type object: its own address and the address of its base type,
for modelling subtyping. -/
structure PyTypeObject where
  tp_addr : Nat
  tp_base : Option Nat
deriving DecidableEq

/-- The Nuitka_Generator_Type type object, at a fixed distinct address. -/
def Nuitka_Generator_Type : PyTypeObject := { tp_addr := 100, tp_base := none }

/-- A Python object as seen by the type check: just its type pointer. -/
structure PyObject where
  ob_type : PyTypeObject
deriving DecidableEq

/-- Py_TYPE. -/
def Py_TYPE (object : PyObject) : PyTypeObject := object.ob_type

/-- Nuitka_Generator_Check from the header: pointer equality of the type
object with Nuitka_Generator_Type. -/
def Nuitka_Generator_Check (object : PyObject) : Bool :=
  (Py_TYPE object).tp_addr == Nuitka_Generator_Type.tp_addr

/-- A proper subtype of the generator type: a distinct type object whose
base is Nuitka_Generator_Type. -/
def genSubtype : PyTypeObject :=
  { tp_addr := 101, tp_base := some Nuitka_Generator_Type.tp_addr }

/-- The caller action that resumes without sending a value and without
injecting an error. -/
def plainResume : World → World := fun w => w

/-- Caller-side driver for a sequence of yields: for each value the producer
yields, record the content of the pending slot as the caller sees it when
its resume call returns, then resume plainly.  Stops early if the hand-off
does not return normally. -/
def driveYields : World → List Obj → List (Option Obj) × World
  | w, [] => ([], w)
  | w, v :: vs =>
      let atSwitch := swapFiber plainResume (writeYielded w v)
      match YIELD_VALUE w v plainResume with
      | .returned _ w1 =>
          let rest := driveYields w1 vs
          (atSwitch.gen.m_yielded :: rest.1, rest.2)
      | .assertFail w1 => ([], w1)
      | .raised w1 => ([], w1)

/-- A sample generator struct used by concrete witnesses. -/
def g0 : Nuitka_GeneratorObject :=
  { m_name := 7, m_yielder_context := 0, m_caller_context := 1, m_context := 0,
    m_weakrefs := none, m_running := 0, m_code := 0, m_yielded := none,
    m_exception_type := none, m_exception_value := none, m_exception_tb := none,
    m_frame := 0, m_code_object := 0, m_status := .status_Running }

/-- A sample world with no pending error and every object live. -/
def w0 : World := { gen := g0, refcnt := fun _ => 1, errIndicator := none }

/-- A sample world with a pending injected error (type 11, value 12,
traceback 13), every object live, empty error indicator. -/
def wE : World :=
  { gen := ({ g0 with m_exception_type := some 11, m_exception_value := some 12, m_exception_tb := some 13 }),
    refcnt := fun _ => 1, errIndicator := none }

/-- A sample world in which every object is dead (zero reference count). -/
def wDead : World := { gen := g0, refcnt := fun _ => 0, errIndicator := none }

/-- A caller action that clears the pending-value slot to NULL during the
switch and injects no error. -/
def clearYielded : World → World :=
  fun u => { u with gen := { u.gen with m_exception_type := u.gen.m_exception_type, m_yielded := none } }

lemma check_exception_none (w : World) (h : w.gen.m_exception_type = none) :
    CHECK_EXCEPTION w = .ok w := by
  unfold CHECK_EXCEPTION
  rw [h]

lemma check_exception_some (w : World) (ty : Obj)
    (h : w.gen.m_exception_type = some ty) (hl : 0 < w.refcnt ty) :
    CHECK_EXCEPTION w = .raised (raiseStoredError w ty) := by
  unfold CHECK_EXCEPTION
  rw [h]
  simp [assertObject, hl]

lemma check_exception_dead (w : World) (ty : Obj)
    (h : w.gen.m_exception_type = some ty) (hd : w.refcnt ty = 0) :
    CHECK_EXCEPTION w = .assertFail w := by
  unfold CHECK_EXCEPTION
  rw [h]
  simp [assertObject, hd]

lemma yield_value_live (w : World) (value : Obj) (f : World → World)
    (hl : 0 < w.refcnt value) :
    YIELD_VALUE w value f =
      (match CHECK_EXCEPTION (f (writeYielded w value)) with
       | CheckResult.assertFail w3 => YieldResult.assertFail w3
       | CheckResult.raised w3 => YieldResult.raised w3
       | CheckResult.ok w3 => YieldResult.returned w3.gen.m_yielded w3) := by
  unfold YIELD_VALUE swapFiber
  simp [assertObject, hl]

lemma yield_value_plain (w : World) (v : Obj) (hl : 0 < w.refcnt v)
    (hexc : w.gen.m_exception_type = none) :
    YIELD_VALUE w v plainResume = .returned (some v) (writeYielded w v) := by
  rw [yield_value_live w v plainResume hl]
  rw [check_exception_none (plainResume (writeYielded w v)) hexc]
  rfl

lemma raiseStoredError_errIndicator (w : World) (ty : Obj) :
    (raiseStoredError w ty).errIndicator =
      some (ty, w.gen.m_exception_value, w.gen.m_exception_tb) := rfl

lemma incref_apply (r : RefCounts) (a o : Obj) :
    incref r a o = r o + (if o = a then 1 else 0) := by
  by_cases h : o = a <;> simp [incref, h]

lemma xincref_apply (s : RefCounts) (x : Option Obj) (o : Obj) :
    xincref s x o = s o + (if x = some o then 1 else 0) := by
  cases x with
  | none => simp [xincref]
  | some a =>
      rcases eq_or_ne a o with h | h
      · subst h; simp [xincref, incref]
      · have h2 : ¬ o = a := fun hh => h hh.symm
        simp [xincref, incref, h, h2]

lemma raiseStoredError_refcnt (w : World) (ty : Obj)
    (hind : w.errIndicator = none) (o : Obj) :
    (raiseStoredError w ty).refcnt o =
      w.refcnt o +
        ((if o = ty then 1 else 0) +
          (if w.gen.m_exception_value = some o then 1 else 0) +
          (if w.gen.m_exception_tb = some o then 1 else 0)) := by
  simp only [raiseStoredError, PyErr_Restore, hind]
  rw [xincref_apply, xincref_apply, incref_apply]
  ring

lemma check_exception_world_fields (w : World) :
    (CHECK_EXCEPTION w).world.gen.m_status = w.gen.m_status ∧
    (CHECK_EXCEPTION w).world.gen.m_yielded = w.gen.m_yielded ∧
    (CHECK_EXCEPTION w).world.gen.m_name = w.gen.m_name := by
  unfold CHECK_EXCEPTION
  cases w.gen.m_exception_type with
  | none => exact ⟨rfl, rfl, rfl⟩
  | some ty =>
      by_cases h : assertObject w (some ty) = true
      · simp only [h, if_true]
        exact ⟨rfl, rfl, rfl⟩
      · simp only [h, if_false]
        exact ⟨rfl, rfl, rfl⟩

/-- C1: YIELD_VALUE first writes the value into m_yielded, then switches
carrying no value; on resume, if m_exception_type is populated (and live)
the stored error is raised at exactly that point via the CHECK_EXCEPTION
raise branch (restoring the stored triple as the current error), and
otherwise it returns the current contents of m_yielded, which the caller
may have replaced during the switch. -/
theorem yield_value_handoff (w : World) (value : Obj) (f : World → World)
    (hlive : 0 < w.refcnt value) :
    (writeYielded w value).gen.m_yielded = some value ∧
    (∀ ty, (f (writeYielded w value)).gen.m_exception_type = some ty →
        0 < (f (writeYielded w value)).refcnt ty →
        YIELD_VALUE w value f =
            .raised (raiseStoredError (f (writeYielded w value)) ty) ∧
          (raiseStoredError (f (writeYielded w value)) ty).errIndicator =
            some (ty, (f (writeYielded w value)).gen.m_exception_value,
              (f (writeYielded w value)).gen.m_exception_tb)) ∧
    ((f (writeYielded w value)).gen.m_exception_type = none →
        YIELD_VALUE w value f =
          .returned (f (writeYielded w value)).gen.m_yielded
            (f (writeYielded w value))) := by
  refine ⟨rfl, ?_, ?_⟩
  · intro ty hty hlv
    rw [yield_value_live w value f hlive,
      check_exception_some (f (writeYielded w value)) ty hty hlv]
    exact ⟨rfl, rfl⟩
  · intro hnone
    rw [yield_value_live w value f hlive,
      check_exception_none (f (writeYielded w value)) hnone]

/-- C1 witness: with every object live, no error injected and an identity
caller, yielding 5 returns 5 and the state with m_yielded = 5. -/
theorem yield_value_handoff_witness :
    YIELD_VALUE w0 5 (fun u => u) = .returned (some 5) (writeYielded w0 5) :=
  (yield_value_handoff w0 5 (fun u => u) (by decide)).2.2 rfl

/-- C2: when the pending injected error is delivered, the raise installs
reference-identical pointers: the error indicator receives exactly the three
pointers stored in the pending-error slots of the generator, not wrapped or
copied objects. -/
theorem error_identity_preserved (w : World) (ty : Obj)
    (h : w.gen.m_exception_type = some ty) (hl : 0 < w.refcnt ty) :
    ∃ w1, CHECK_EXCEPTION w = .raised w1 ∧
      w1.errIndicator =
        some (ty, w.gen.m_exception_value, w.gen.m_exception_tb) :=
  ⟨raiseStoredError w ty, check_exception_some w ty h hl, rfl⟩

/-- C2 witness: at the sample world with stored triple (11, 12, 13), the
raise installs exactly (11, some 12, some 13). -/
theorem error_identity_preserved_witness :
    ∃ w1, CHECK_EXCEPTION wE = .raised w1 ∧
      w1.errIndicator = some (11, some 12, some 13) :=
  error_identity_preserved wE 11 rfl (by decide)

/-- C7: the name accessor returns exactly the stored m_name object and
leaves the whole state (generator fields, reference counts, error
indicator) untouched. -/
theorem get_name_pure (w : World) :
    (Nuitka_Generator_GetName w).1 = w.gen.m_name ∧
    (Nuitka_Generator_GetName w).2 = w :=
  ⟨rfl, rfl⟩

/-- C8: the raise clears only m_exception_type; m_exception_value and
m_exception_tb keep their previous pointers, a second CHECK_EXCEPTION on the
resulting state falls through (the same error is never raised twice), and
whether the triple counts as populated is decided solely by
m_exception_type being non-NULL. -/
theorem exception_kind_only_cleared (w : World) (ty : Obj)
    (h : w.gen.m_exception_type = some ty) (hl : 0 < w.refcnt ty) :
    ∃ w1, CHECK_EXCEPTION w = .raised w1 ∧
      w1.gen.m_exception_type = none ∧
      w1.gen.m_exception_value = w.gen.m_exception_value ∧
      w1.gen.m_exception_tb = w.gen.m_exception_tb ∧
      CHECK_EXCEPTION w1 = .ok w1 ∧
      (∀ u : World, u.gen.m_exception_type = none →
          CHECK_EXCEPTION u = .ok u) := by
  refine ⟨raiseStoredError w ty, check_exception_some w ty h hl,
    rfl, rfl, rfl, ?_, ?_⟩
  · exact check_exception_none (raiseStoredError w ty) rfl
  · exact fun u hu => check_exception_none u hu

/-- C8 witness: at the sample world with stored triple (11, 12, 13). -/
theorem exception_kind_only_cleared_witness :
    ∃ w1, CHECK_EXCEPTION wE = .raised w1 ∧
      w1.gen.m_exception_type = none ∧
      w1.gen.m_exception_value = some 12 ∧
      w1.gen.m_exception_tb = some 13 ∧
      CHECK_EXCEPTION w1 = .ok w1 ∧
      (∀ u : World, u.gen.m_exception_type = none →
          CHECK_EXCEPTION u = .ok u) :=
  exception_kind_only_cleared wE 11 rfl (by decide)

/-- C9: the raise acquires fresh references before handing the triple to
PyErr_Restore, which takes ownership of them: the count of each object grows by
exactly the number of handed non-NULL pointers equal to it, the indicator
owns exactly the handed triple, and the slot references of the generator are
not consumed. -/
theorem raise_preserves_slot_refs (w : World) (ty : Obj)
    (h : w.gen.m_exception_type = some ty) (hl : 0 < w.refcnt ty)
    (hind : w.errIndicator = none) :
    ∃ w1, CHECK_EXCEPTION w = .raised w1 ∧
      w1.errIndicator =
        some (ty, w.gen.m_exception_value, w.gen.m_exception_tb) ∧
      ∀ o : Obj, w1.refcnt o =
        w.refcnt o +
          ((if o = ty then 1 else 0) +
            (if w.gen.m_exception_value = some o then 1 else 0) +
            (if w.gen.m_exception_tb = some o then 1 else 0)) :=
  ⟨raiseStoredError w ty, check_exception_some w ty h hl, rfl,
    raiseStoredError_refcnt w ty hind⟩

/-- C9 witness: at the sample world with stored triple (11, 12, 13). -/
theorem raise_preserves_slot_refs_witness :
    ∃ w1, CHECK_EXCEPTION wE = .raised w1 ∧
      w1.errIndicator = some (11, some 12, some 13) ∧
      ∀ o : Obj, w1.refcnt o =
        wE.refcnt o +
          ((if o = 11 then 1 else 0) +
            (if (some 12 : Option Obj) = some o then 1 else 0) +
            (if (some 13 : Option Obj) = some o then 1 else 0)) :=
  raise_preserves_slot_refs wE 11 rfl (by decide) rfl

/-- C10: the type check is exact pointer equality with the generator type
object: it accepts an object exactly when its type is that very type
object, and rejects an instance of a proper subtype whose base is the
generator type. -/
theorem generator_check_exact :
    (∀ object : PyObject,
        Nuitka_Generator_Check object = true ↔
          (Py_TYPE object).tp_addr = Nuitka_Generator_Type.tp_addr) ∧
    Nuitka_Generator_Check { ob_type := genSubtype } = false ∧
    genSubtype.tp_base = some Nuitka_Generator_Type.tp_addr := by
  refine ⟨fun object => ?_, rfl, rfl⟩
  simp [Nuitka_Generator_Check]

/-- C3 counterexample: the incoming pending value is not guarded by any
assertion — when the caller clears the pending-value slot to NULL during
the switch and injects no error, YIELD_VALUE returns the NULL pointer
normally instead of dying on an assertion, refuting the claim that a null
payload on the way back in is a fatal assertion failure in both
directions. -/
theorem live_payload_assertion_cex :
    (YIELD_VALUE w0 5 clearYielded).retVal = some none ∧
    (YIELD_VALUE w0 5 clearYielded).isAssertFail = false := by
  exact ⟨rfl, rfl⟩

/-- C3 (amended): the assertion guards the outgoing yielded value before the
switch and the injected error kind on resume — a null or dead object in
either of those two places is a fatal assertion failure, and under the
precondition that both are live the assertion-failure branch is
unreachable; the pending value returned on the way back in is not
asserted. -/
theorem live_payload_assertion_amended (w : World) (value : Obj)
    (f : World → World) :
    (assertObject w (some value) = false →
        YIELD_VALUE w value f = .assertFail w) ∧
    (∀ ty, 0 < w.refcnt value →
        (f (writeYielded w value)).gen.m_exception_type = some ty →
        (f (writeYielded w value)).refcnt ty = 0 →
        YIELD_VALUE w value f = .assertFail (f (writeYielded w value))) ∧
    (0 < w.refcnt value →
        (∀ ty, (f (writeYielded w value)).gen.m_exception_type = some ty →
            0 < (f (writeYielded w value)).refcnt ty) →
        (YIELD_VALUE w value f).isAssertFail = false) := by
  refine ⟨?_, ?_, ?_⟩
  · intro h
    unfold YIELD_VALUE
    simp [h]
  · intro ty hv hty hdead
    rw [yield_value_live w value f hv,
      check_exception_dead (f (writeYielded w value)) ty hty hdead]
  · intro hv hl
    rw [yield_value_live w value f hv]
    cases hE : (f (writeYielded w value)).gen.m_exception_type with
    | none => rw [check_exception_none (f (writeYielded w value)) hE]; rfl
    | some ty =>
        rw [check_exception_some (f (writeYielded w value)) ty hE (hl ty hE)]
        rfl

/-- C3 witness for the amended statement: a dead outgoing value dies on the
assertion, while a live value with a live injected error never reaches the
assertion-failure branch. -/
theorem live_payload_assertion_amended_witness :
    YIELD_VALUE wDead 5 plainResume = .assertFail wDead ∧
    (YIELD_VALUE w0 5 plainResume).isAssertFail = false :=
  ⟨(live_payload_assertion_amended wDead 5 plainResume).1 (by decide),
    (live_payload_assertion_amended w0 5 plainResume).2.2 (by decide)
      (fun ty h => nomatch h)⟩

/-- C4 counterexample: the version-gated branch and the unconditional no-op
branch are not equivalent — below version 2.7.0, yield-return of the
non-None value 5 hands the value off through YIELD_VALUE and leaves
m_yielded = 5, while at 2.7.0 the operation is a no-op and m_yielded stays
NULL. -/
theorem yield_return_version_cex :
    (YIELD_RETURN 260 w0 5 plainResume).world.gen.m_yielded ≠
      (YIELD_RETURN 270 w0 5 plainResume).world.gen.m_yielded := by
  decide

/-- C4 (amended): YIELD_RETURN is an unconditional no-op only for runtime
version at least 2.7.0; below 2.7.0 it is a no-op exactly when the returned
value is None, and otherwise performs a full YIELD_VALUE hand-off (here
shown with a plain caller: the pending slot ends holding the value), so the
two branches are not equivalent as functions of (generator, value). -/
theorem yield_return_version_amended (version : Nat) (w : World)
    (value : Obj) (f : World → World) :
    (270 ≤ version → YIELD_RETURN version w value f = .ok w) ∧
    (version < 270 → value = Py_None →
        YIELD_RETURN version w value f = .ok w) ∧
    (version < 270 → value ≠ Py_None → 0 < w.refcnt value →
        w.gen.m_exception_type = none →
        YIELD_RETURN version w value plainResume =
          .ok (writeYielded w value)) := by
  refine ⟨?_, ?_, ?_⟩
  · intro h
    unfold YIELD_RETURN
    rw [if_neg (by omega)]
  · intro hv hn
    unfold YIELD_RETURN
    rw [if_pos hv, if_pos hn]
  · intro hv hn hl hexc
    unfold YIELD_RETURN
    rw [if_pos hv, if_neg hn, yield_value_plain w value hl hexc]

/-- C4 witness for the amended statement at versions 271 and 260. -/
theorem yield_return_version_amended_witness :
    YIELD_RETURN 271 w0 5 plainResume = .ok w0 ∧
    YIELD_RETURN 260 w0 0 plainResume = .ok w0 ∧
    YIELD_RETURN 260 w0 5 plainResume = .ok (writeYielded w0 5) :=
  ⟨(yield_return_version_amended 271 w0 5 plainResume).1 (by omega),
    (yield_return_version_amended 260 w0 0 plainResume).2.1 (by omega) rfl,
    (yield_return_version_amended 260 w0 5 plainResume).2.2 (by omega)
      (by decide) (by decide) rfl⟩

lemma yield_value_status (w : World) (value : Obj) (f : World → World)
    (hf : ∀ u, (f u).gen.m_status = u.gen.m_status) :
    (YIELD_VALUE w value f).world.gen.m_status = w.gen.m_status := by
  unfold YIELD_VALUE swapFiber
  by_cases h : assertObject w (some value) = true
  · simp only [h, if_true]
    have h2 : (f (writeYielded w value)).gen.m_status = w.gen.m_status :=
      hf (writeYielded w value)
    have h3 := (check_exception_world_fields (f (writeYielded w value))).1
    cases hc : CHECK_EXCEPTION (f (writeYielded w value)) with
    | assertFail w3 => rw [hc] at h3; exact h3.trans h2
    | raised w3 => rw [hc] at h3; exact h3.trans h2
    | ok w3 => rw [hc] at h3; exact h3.trans h2
  · rw [if_neg h]
    rfl

lemma yield_return_status (version : Nat) (w : World) (value : Obj)
    (f : World → World) (hf : ∀ u, (f u).gen.m_status = u.gen.m_status) :
    (YIELD_RETURN version w value f).world.gen.m_status = w.gen.m_status := by
  unfold YIELD_RETURN
  by_cases h1 : version < 270
  · rw [if_pos h1]
    by_cases h2 : value = Py_None
    · rw [if_pos h2]
      rfl
    · rw [if_neg h2]
      have h3 := yield_value_status w value f hf
      cases hy : YIELD_VALUE w value f with
      | assertFail w1 => rw [hy] at h3; exact h3
      | raised w1 => rw [hy] at h3; exact h3
      | returned v w1 => rw [hy] at h3; exact h3
  · rw [if_neg h1]
    rfl

/-- C5: the status field ranges over exactly Unused, Running and Finished,
and each operation of this hand-off core — yield, yield-return, the
exception check and the name accessor — leaves m_status unchanged (the
yield-based ones under the hypothesis that the caller action itself
preserves the status), so in particular the status never regresses along
the Unused -> Running -> Finished order across these operations. -/
theorem status_unchanged_by_handoff (w : World) (value : Obj)
    (version : Nat) (f : World → World)
    (hf : ∀ u, (f u).gen.m_status = u.gen.m_status) :
    (∀ s : Generator_Status,
        s = .status_Unused ∨ s = .status_Running ∨ s = .status_Finished) ∧
    (YIELD_VALUE w value f).world.gen.m_status = w.gen.m_status ∧
    (YIELD_RETURN version w value f).world.gen.m_status = w.gen.m_status ∧
    (CHECK_EXCEPTION w).world.gen.m_status = w.gen.m_status ∧
    (Nuitka_Generator_GetName w).2.gen.m_status = w.gen.m_status ∧
    statusLe w.gen.m_status (YIELD_VALUE w value f).world.gen.m_status := by
  refine ⟨?_, yield_value_status w value f hf,
    yield_return_status version w value f hf,
    (check_exception_world_fields w).1, rfl, ?_⟩
  · intro s
    cases s
    · exact Or.inl rfl
    · exact Or.inr (Or.inl rfl)
    · exact Or.inr (Or.inr rfl)
  · rw [yield_value_status w value f hf]
    exact le_refl _

/-- C5 witness: a plain yield of 5 from a Running generator leaves the
status Running. -/
theorem status_unchanged_by_handoff_witness :
    (YIELD_VALUE w0 5 plainResume).world.gen.m_status =
      Generator_Status.status_Running :=
  (status_unchanged_by_handoff w0 5 270 plainResume (fun _ => rfl)).2.1

/-- C6: values go through the single m_yielded slot with no buffering: for
every sequence of yields with a plain caller, the value the caller observes
at each switch is exactly the value passed to the most recent yield, in
strict program order. -/
theorem single_slot_strict_order (w : World) (vs : List Obj)
    (hexc : w.gen.m_exception_type = none)
    (hlive : ∀ v ∈ vs, 0 < w.refcnt v) :
    (driveYields w vs).1 = vs.map some := by
  induction vs generalizing w with
  | nil => rfl
  | cons v vs ih =>
      have hv : 0 < w.refcnt v := hlive v (List.mem_cons_self v vs)
      unfold driveYields
      rw [yield_value_plain w v hv hexc]
      exact congrArg₂ List.cons rfl
        (ih (writeYielded w v) hexc
          (fun u hu => hlive u (List.mem_cons_of_mem v hu)))

/-- C6 witness: yielding 5, 6, 7 in turn is observed as exactly
5, 6, 7. -/
theorem single_slot_strict_order_witness :
    (driveYields w0 [5, 6, 7]).1 = [some 5, some 6, some 7] :=
  single_slot_strict_order w0 [5, 6, 7] rfl (by decide)

end Nuitka
